import Mathlib

/-
Shallow embedding of the Shiftmatic tracker server (src/server.js, plus the
legacy store-based variant in src/unnamed/part_000) and proofs about its
session registry, ingestion pipeline and caches.

Modelling conventions for JavaScript values:
  * A JSON field that is used only through `Number(...)` is modelled as
    `Option JNum`: `none` stands for an absent / `null` / `undefined` value
    (these are exactly the values skipped by the `??` operator), and a present
    value is classified by its `Number` coercion: a finite rational, `NaN`
    (any non-numeric value), or an infinity.
  * A JSON field that is used only through `String(...)` is modelled as
    `Option String`: `none` for absent / `null` / `undefined`, otherwise the
    string coercion of the value.
  * JS `Map`s are modelled as insertion-ordered association lists with the
    exact `set` / `get` / `delete` semantics.
  * `Date.now()` / `NOW()` are modelled by the `now` field of the state; the
    database id sequence by `nextSessionId` / `nextCoordId`.
  * A DB insert that may fail is modelled by an explicit `insertOk` flag fed
    to the handler (the environment's behaviour); the handler itself is a
    total function, which models the fact that no exception escapes it.
-/

namespace Shiftmatic

/-- Result of the JavaScript `Number(...)` coercion of a present JSON value:
a finite number, `NaN`, or an infinity. -/
inductive JNum where
  | fin (q : ℚ)
  | nan
  | inf
deriving Repr, DecidableEq

/-- JS truthiness of a number: `0` and `NaN` are falsy, infinities are truthy. -/
def jTruthy : JNum → Bool
  | .fin q => q ≠ 0
  | .nan => false
  | .inf => true

/-- `Number.isFinite`. -/
def jFinite : JNum → Bool
  | .fin _ => true
  | .nan => false
  | .inf => false

/-- The fields of a parsed inbound JSON payload that the server reads, each
under the coercion the server applies to it (see the conventions above).
`rest` stands for the remaining payload, which the status branch passes
through opaquely (`{ ...st }`). -/
structure RawMsg where
  deviceId : Option String
  id : Option String
  sessionId : Option JNum
  sid : Option JNum
  lat : Option JNum
  la : Option JNum
  lon : Option JNum
  lo : Option JNum
  ts : Option JNum
  t : Option JNum
  device_ts : Option JNum
  rest : String
deriving Repr, DecidableEq

/-- A `sessions` table row. -/
structure Session where
  id : Nat
  deviceId : String
  title : Option String
  startedAt : Nat
  endedAt : Option Nat
  isActive : Bool
deriving Repr, DecidableEq

/-- A `coordinates` table row.  `sessionId` is rational because the code
inserts whatever number the hint resolved to. -/
structure Coordinate where
  id : Nat
  sessionId : ℚ
  deviceId : String
  lat : ℚ
  lon : ℚ
  deviceTs : Option JNum
  serverTs : Nat
deriving Repr, DecidableEq

/-- An entry of `latestTelemetryByDevice`. -/
structure TelemetrySnapshot where
  lat : ℚ
  lon : ℚ
  sid : Option ℚ
  deviceTs : Option JNum
  serverTs : Nat
deriving Repr, DecidableEq

/-- An entry of `latestStatusByDevice`: the normalized payload plus receive time. -/
structure StatusSnapshot where
  raw : RawMsg
  deviceId : String
  serverTs : Nat
deriving Repr, DecidableEq

/-- An MQTT command published on a device's `cmd` topic. -/
structure Command where
  topic : String
  cmd : String
  sessionId : Nat
deriving Repr, DecidableEq

/-- JS `Map.set`: overwrite in place if the key exists, else append. -/
def mapSet {α : Type} (m : List (String × α)) (k : String) (v : α) : List (String × α) :=
  match m with
  | [] => [(k, v)]
  | (k', v') :: rest => if k' = k then (k, v) :: rest else (k', v') :: mapSet rest k v

/-- JS `Map.get` (as an `Option`). -/
def mapGet {α : Type} (m : List (String × α)) (k : String) : Option α :=
  match m with
  | [] => none
  | (k', v') :: rest => if k' = k then some v' else mapGet rest k

/-- JS `Map.delete`. -/
def mapDelete {α : Type} (m : List (String × α)) (k : String) : List (String × α) :=
  match m with
  | [] => []
  | (k', v') :: rest => if k' = k then rest else (k', v') :: mapDelete rest k

/-- The whole mutable state of the server process: the durable store
(`sessions`, `coordinates` and the id sequences), the three in-memory caches,
the published commands, and the current clock reading. -/
structure ServerState where
  sessions : List Session
  coordinates : List Coordinate
  activeSessionByDevice : List (String × Nat)
  latestTelemetryByDevice : List (String × TelemetrySnapshot)
  latestStatusByDevice : List (String × StatusSnapshot)
  published : List Command
  nextSessionId : Nat
  nextCoordId : Nat
  now : Nat
deriving Repr, DecidableEq

def initialState : ServerState :=
  { sessions := [], coordinates := [], activeSessionByDevice := [],
    latestTelemetryByDevice := [], latestStatusByDevice := [], published := [],
    nextSessionId := 1, nextCoordId := 1, now := 0 }

/-- Output of `normalizeTelemetry`. -/
structure NormTelemetry where
  deviceId : String
  sessionId : JNum
  lat : JNum
  lon : JNum
  ts : Option JNum
deriving Repr, DecidableEq

/-- `normalizeTelemetry` (src/server.js:116-128):
`deviceId = String(obj.deviceId ?? obj.id ?? "")`,
`sessionId = Number(obj.sessionId ?? obj.sid ?? 0)`,
`lat = Number(obj.lat ?? obj.la)`, `lon = Number(obj.lon ?? obj.lo)`,
`ts = Number(obj.ts ?? obj.t ?? obj.device_ts ?? 0) || null`. -/
def normalizeTelemetry (obj : RawMsg) : NormTelemetry :=
  let deviceId := (obj.deviceId.orElse (fun _ => obj.id)).getD ""
  let sessionId := (obj.sessionId.orElse (fun _ => obj.sid)).getD (.fin 0)
  let lat := (obj.lat.orElse (fun _ => obj.la)).getD .nan
  let lon := (obj.lon.orElse (fun _ => obj.lo)).getD .nan
  let tsRaw := ((obj.ts.orElse (fun _ => obj.t)).orElse (fun _ => obj.device_ts)).getD (.fin 0)
  let ts := if jTruthy tsRaw then some tsRaw else none
  { deviceId, sessionId, lat, lon, ts }

/-- Output of `normalizeStatus`. -/
structure NormStatus where
  deviceId : String
  raw : RawMsg
deriving Repr, DecidableEq

/-- `normalizeStatus` (src/server.js:130-135): normalize the id field, keep
the rest of the payload as-is. -/
def normalizeStatus (obj : RawMsg) : NormStatus :=
  { deviceId := (obj.deviceId.orElse (fun _ => obj.id)).getD "", raw := obj }

/-- `insertCoordinate` (src/server.js:101-111), success path: append a row
with the next id and the current server time. -/
def insertCoordinate (s : ServerState) (deviceId : String) (sessionId : ℚ)
    (lat lon : ℚ) (ts : Option JNum) : ServerState :=
  { s with
    coordinates := (s.coordinates ++
      [{ id := s.nextCoordId, sessionId, deviceId, lat, lon, deviceTs := ts,
         serverTs := s.now }]),
    nextCoordId := s.nextCoordId + 1 }

/-- The JS `topic.endsWith(suffix)` check, modelled structurally on the
character list so that proofs can evaluate it on concrete topics. -/
def strEndsWith (s suffix : String) : Bool :=
  suffix.data.isSuffixOf s.data

/-- The session-id preference of the telemetry branch (src/server.js:169-170):
`let sid = Number(t.sessionId); if (!Number.isFinite(sid) || sid <= 0)
sid = activeSessionByDevice.get(t.deviceId) || 0;`. -/
def resolveSid (hint : JNum) (device : String) (cache : List (String × Nat)) : ℚ :=
  match hint with
  | .fin q => if 0 < q then q else (((mapGet cache device).getD 0 : Nat) : ℚ)
  | _ => (((mapGet cache device).getD 0 : Nat) : ℚ)

/-- The MQTT message handler (src/server.js:137-200).  `payload = none` models
a `JSON.parse` failure; `insertOk` models whether the DB insert, if attempted,
succeeds.  The function is total: every branch returns a state, modelling that
no exception escapes the handler. -/
def handleMessage (topic : String) (payload : Option RawMsg) (insertOk : Bool)
    (s : ServerState) : ServerState :=
  match payload with
  | none => s
  | some data =>
    if strEndsWith topic "/status" then
      let st := normalizeStatus data
      if st.deviceId = "" then s
      else
        { s with latestStatusByDevice :=
            (mapSet s.latestStatusByDevice st.deviceId
              { raw := data, deviceId := st.deviceId, serverTs := s.now }) }
    else if strEndsWith topic "/telemetry" then
      let t := normalizeTelemetry data
      if t.deviceId = "" then s
      else
        match t.lat, t.lon with
        | .fin lat, .fin lon =>
          let sid : ℚ := resolveSid t.sessionId t.deviceId s.activeSessionByDevice
          let s1 :=
            { s with latestTelemetryByDevice :=
                (mapSet s.latestTelemetryByDevice t.deviceId
                  { lat, lon, sid := if sid = 0 then none else some sid,
                    deviceTs := t.ts, serverTs := s.now }) }
          if sid = 0 then s1
          else if insertOk then insertCoordinate s1 t.deviceId sid lat lon t.ts
          else s1
        | _, _ => s
    else s

def cmdTopicFor (device : String) : String :=
  "shiftmatic/test/" ++ device ++ "/cmd"

/-- JS `title || null`: an empty title becomes null. -/
def titleOrNull (title : Option String) : Option String :=
  match title with
  | some "" => none
  | x => x

inductive StartResult where
  | badRequest
  | started (session : Session)
deriving Repr, DecidableEq

/-- `POST /api/sessions/start` (src/server.js:281-316): deactivate every
active row of the device, insert a fresh active row, point the cache at it,
publish a START command. -/
def apiStart (deviceId : String) (title : Option String) (s : ServerState) :
    ServerState × StartResult :=
  if deviceId = "" then (s, .badRequest)
  else
    let device := deviceId
    let sessions1 := s.sessions.map (fun r =>
      if r.deviceId = device ∧ r.isActive = true then
        { r with isActive := false, endedAt := some s.now }
      else r)
    let newSession : Session :=
      { id := s.nextSessionId, deviceId := device, title := titleOrNull title,
        startedAt := s.now, endedAt := none, isActive := true }
    ({ s with
        sessions := sessions1 ++ [newSession],
        activeSessionByDevice := mapSet s.activeSessionByDevice device newSession.id,
        published := (s.published ++
          [{ topic := cmdTopicFor device, cmd := "START", sessionId := newSession.id }]),
        nextSessionId := s.nextSessionId + 1 },
      .started newSession)

inductive StopResult where
  | badRequest
  | notFound
  | stopped (deviceId : String) (sessionId : Nat)
deriving Repr, DecidableEq

/-- `SELECT id FROM sessions WHERE device_id=$1 AND is_active=true
ORDER BY started_at DESC LIMIT 1`. -/
def latestActiveSession (device : String) (sessions : List Session) : Option Session :=
  (sessions.filter (fun r => r.deviceId == device && r.isActive)).foldl
    (fun acc r =>
      match acc with
      | none => some r
      | some b => if b.startedAt < r.startedAt then some r else some b)
    none

/-- `POST /api/sessions/stop` (src/server.js:319-359): resolve the active
session from the cache (a cached `0` is falsy, like `undefined`), falling back
to the durable query; 404 if none; otherwise deactivate the row, clear the
cache entry and publish a STOP command. -/
def apiStop (deviceId : String) (s : ServerState) : ServerState × StopResult :=
  if deviceId = "" then (s, .badRequest)
  else
    let device := deviceId
    let fallbackRows : List Nat := ((latestActiveSession device s.sessions).map (·.id)).toList
    let activeRows : List Nat :=
      match mapGet s.activeSessionByDevice device with
      | some sid => if sid ≠ 0 then [sid] else fallbackRows
      | none => fallbackRows
    match activeRows with
    | [] => (s, .notFound)
    | sessionId :: _ =>
      ({ s with
          sessions := (s.sessions.map (fun r =>
            if r.id = sessionId then { r with isActive := false, endedAt := some s.now }
            else r)),
          activeSessionByDevice := mapDelete s.activeSessionByDevice device,
          published := (s.published ++
            [{ topic := cmdTopicFor device, cmd := "STOP", sessionId }]) },
        .stopped device sessionId)

/-- `loadActiveSessionsIntoCache` (src/server.js:50-55): clear the cache, then
`set` an entry for every durable row with `is_active = true`, in row order. -/
def loadActiveSessionsIntoCache (s : ServerState) : ServerState :=
  { s with activeSessionByDevice :=
      ((s.sessions.filter (fun r => r.isActive)).foldl
        (fun m r => mapSet m r.deviceId r.id) []) }

inductive LatestResult where
  | badRequest
  | fromMemory (deviceId : String) (sessionId : Option ℚ) (lat lon : ℚ)
      (deviceTs : Option JNum) (serverTs : Nat)
  | fromDb (c : Coordinate)
  | notFound
deriving Repr, DecidableEq

/-- `ORDER BY created_at DESC LIMIT 1` over a device's coordinates: rows are
appended in creation order, so this is the last matching row. -/
def latestCoordinate (device : String) (cs : List Coordinate) : Option Coordinate :=
  (cs.filter (fun c => c.deviceId == device)).getLast?

/-- `GET /api/latest` (src/server.js:224-266): memory first, DB fallback. -/
def apiLatest (deviceId : String) (s : ServerState) : LatestResult :=
  if deviceId = "" then .badRequest
  else
    match mapGet s.latestTelemetryByDevice deviceId with
    | some snap => .fromMemory deviceId snap.sid snap.lat snap.lon snap.deviceTs snap.serverTs
    | none =>
      match latestCoordinate deviceId s.coordinates with
      | some c => .fromDb c
      | none => .notFound

/-
Fine-grained model of `POST /api/sessions/start` for concurrency analysis.
The route body contains two `await`ed durable operations with no per-device
lock around them; at each `await`, Node's event loop may run another request's
handler.  A `start` call therefore decomposes into two atomic micro-steps:
the deactivating UPDATE (src/server.js:288-292), and the INSERT together with
the synchronous tail that follows its resolution (cache update, publish;
src/server.js:294-312).
-/

/-- One atomic micro-step of a `start` request. -/
inductive MicroStep where
  | deactivate (device : String)
  | insertAndCache (device : String) (title : Option String)
deriving Repr, DecidableEq

/-- Effect of a single micro-step on the state. -/
def runMicro (st : ServerState) : MicroStep → ServerState
  | .deactivate device =>
    { st with sessions := (st.sessions.map (fun r =>
        if r.deviceId = device ∧ r.isActive = true then
          { r with isActive := false, endedAt := some st.now }
        else r)) }
  | .insertAndCache device title =>
    { st with
        sessions := (st.sessions ++
          [{ id := st.nextSessionId, deviceId := device, title := titleOrNull title,
             startedAt := st.now, endedAt := none, isActive := true }]),
        activeSessionByDevice := mapSet st.activeSessionByDevice device st.nextSessionId,
        published := (st.published ++
          [{ topic := cmdTopicFor device, cmd := "START", sessionId := st.nextSessionId }]),
        nextSessionId := st.nextSessionId + 1 }

def runTrace (trace : List MicroStep) (st : ServerState) : ServerState :=
  trace.foldl runMicro st

/-- The micro-step decomposition of one `start` request. -/
def startMicro (device : String) (title : Option String) : List MicroStep :=
  [.deactivate device, .insertAndCache device title]

/-- `isInterleave as bs cs` holds when `cs` is an interleaving of `as` and
`bs` (each kept in order). -/
def isInterleave : List MicroStep → List MicroStep → List MicroStep → Bool
  | as, bs, [] => as.isEmpty && bs.isEmpty
  | as, bs, c :: cs =>
    (match as with
     | a :: as' => a == c && isInterleave as' bs cs
     | [] => false)
    ||
    (match bs with
     | b :: bs' => b == c && isInterleave as bs' cs
     | [] => false)

/-- Number of `sessions` rows of a device with `is_active = true`. -/
def countActiveSessions (device : String) (sessions : List Session) : Nat :=
  (sessions.filter (fun r => r.deviceId == device && r.isActive)).length

/-
Embedding of the legacy store-based variant (the second file inside
src/unnamed/part_000, lines 335-532): no sessions, a single bounded in-memory
`store` of entries, fed by an MQTT handler and by `POST /api/telemetry`.
Its handlers destructure `{deviceId, lat, lon, ts}` directly (no field
aliases).  `deviceId` is used through its JS truthiness and then `String(...)`:
`none` models a falsy raw value (absent, null, 0, "", NaN, false), and
`some str` a truthy value with string coercion `str`.  `lat`, `lon`, `ts` are
modelled by their `Number(...)` coercion (absent destructures to `undefined`,
whose coercion is `NaN`). -/
structure LegacyMsg where
  deviceId : Option String
  lat : JNum
  lon : JNum
  ts : JNum
deriving Repr, DecidableEq

/-- An entry of the legacy in-memory `store`.  `iso` is the ISO rendering of
the receive time, modelled by the timestamp it renders. -/
structure LegacyEntry where
  deviceId : String
  lat : ℚ
  lon : ℚ
  ts : JNum
  serverTs : Nat
  iso : Nat
  via : String
deriving Repr, DecidableEq

def MAX_POINTS : Nat := 20000

/-- `prune()`: `store.splice(0, store.length - MAX_POINTS)` when over the cap. -/
def prune (store : List LegacyEntry) : List LegacyEntry :=
  if store.length > MAX_POINTS then store.drop (store.length - MAX_POINTS) else store

/-- The legacy MQTT message handler (src/unnamed/part_000:409-439).
`payload = none` models a `JSON.parse` failure (caught and logged). -/
def legacyMqttMessage (payload : Option LegacyMsg) (now : Nat)
    (store : List LegacyEntry) : List LegacyEntry :=
  match payload with
  | none => store
  | some data =>
    match data.deviceId with
    | none => store
    | some dev =>
      match data.lat, data.lon with
      | .fin lat, .fin lon =>
        let entry : LegacyEntry :=
          { deviceId := dev, lat, lon,
            ts := if jTruthy data.ts then data.ts else .fin (now : ℚ),
            serverTs := now, iso := now, via := "MQTT" }
        prune (store ++ [entry])
      | _, _ => store

inductive LegacyHttpResult where
  | badRequestDevice
  | badRequestLatLon
  | okReceived (entry : LegacyEntry)
deriving Repr, DecidableEq

/-- The legacy `POST /api/telemetry` handler (src/unnamed/part_000:449-487):
a parallel implementation of the same validation and entry construction,
tagging the entry `via: "HTTP"` and answering 400 on rejection. -/
def legacyHttpTelemetry (body : LegacyMsg) (now : Nat)
    (store : List LegacyEntry) : List LegacyEntry × LegacyHttpResult :=
  match body.deviceId with
  | none => (store, .badRequestDevice)
  | some dev =>
    match body.lat, body.lon with
    | .fin lat, .fin lon =>
      let entry : LegacyEntry :=
        { deviceId := dev, lat, lon,
          ts := if jTruthy body.ts then body.ts else .fin (now : ℚ),
          serverTs := now, iso := now, via := "HTTP" }
      (prune (store ++ [entry]), .okReceived entry)
    | _, _ => (store, .badRequestLatLon)

/-- Erase the channel tag of a legacy store entry. -/
def eraseVia (e : LegacyEntry) : LegacyEntry :=
  { e with via := "" }

/-
Helper lemmas about the JS `Map` model.
-/

theorem mapGet_mapSet_same {α : Type} (m : List (String × α)) (k : String) (v : α) :
    mapGet (mapSet m k v) k = some v := by
  induction m with
  | nil => simp [mapSet, mapGet]
  | cons kv rest ih =>
    obtain ⟨k', v'⟩ := kv
    by_cases h : k' = k
    · simp [mapSet, mapGet, h]
    · simp [mapSet, mapGet, h, ih]

theorem mapGet_mapSet_ne {α : Type} (m : List (String × α)) (k k' : String) (v : α)
    (h : k' ≠ k) : mapGet (mapSet m k v) k' = mapGet m k' := by
  induction m with
  | nil => simp [mapSet, mapGet, Ne.symm h]
  | cons kv rest ih =>
    obtain ⟨k0, v0⟩ := kv
    by_cases h0 : k0 = k
    · subst h0
      simp [mapSet, mapGet, Ne.symm h]
    · by_cases h1 : k0 = k'
      · simp [mapSet, mapGet, h0, h1, h]
      · simp [mapSet, mapGet, h0, h1, ih]

/-
Claim C1.  `apiStart` is the two micro-steps of `startMicro` run back to
back; the next lemma records this correspondence.
-/

theorem apiStart_eq_runTrace (device : String) (title : Option String)
    (s : ServerState) (h : device ≠ "") :
    (apiStart device title s).1 = runTrace (startMicro device title) s := by
  simp [apiStart, h, runTrace, startMicro, runMicro]

/-- The interleaving of two `start` calls for one device in which both
deactivating UPDATEs run before either INSERT (possible because each `await`
yields the event loop and no per-device lock exists). -/
def racyTrace : List MicroStep :=
  [.deactivate "esp32-001", .deactivate "esp32-001",
   .insertAndCache "esp32-001" (some "t1"), .insertAndCache "esp32-001" (some "t2")]

/-- Claim C1: the spec demands that at every instant at most one session row
per device has `isActive = true`, under concurrently interleaved start/stop
calls too.  The code has no per-device serialization, and this interleaving of
two `start` calls for one device (both deactivating UPDATEs before either
INSERT) leaves two active session rows, refuting the invariant on the code. -/
theorem C1_interleaved_starts_leave_two_active :
    isInterleave (startMicro "esp32-001" (some "t1"))
        (startMicro "esp32-001" (some "t2")) racyTrace = true
    ∧ countActiveSessions "esp32-001" (runTrace racyTrace initialState).sessions = 2 := by
  constructor
  · rfl
  · rfl

/-- Sequential sanity check: run back to back (no interleaving), two `start`
calls leave exactly one active session for the device. -/
theorem sequential_starts_one_active :
    countActiveSessions "esp32-001"
      (runTrace (startMicro "esp32-001" (some "t1") ++ startMicro "esp32-001" (some "t2"))
        initialState).sessions = 1 := by
  rfl

/-- Claim C3: `stop` for a device with no cache entry and no active durable
row answers not-found and returns the state unchanged: no session row is
mutated, the cache is untouched, and no command is published. -/
theorem C3_stop_without_active_session_is_noop (device : String) (s : ServerState)
    (hdev : device ≠ "")
    (hcache : mapGet s.activeSessionByDevice device = none)
    (hdb : ∀ r ∈ s.sessions, r.deviceId = device → r.isActive = false) :
    apiStop device s = (s, .notFound) := by
  have hfilter : s.sessions.filter (fun r => r.deviceId == device && r.isActive) = [] := by
    rw [List.filter_eq_nil_iff]
    intro r hr
    by_cases h : r.deviceId = device
    · simp [h, hdb r hr h]
    · simp [h]
  simp [apiStop, hdev, hcache, latestActiveSession, hfilter]

/-- A concrete state for the C3 witness: one ended session for the device, an
unrelated active session for another device, no cache entry for the device. -/
def c3State : ServerState :=
  { sessions :=
      [{ id := 1, deviceId := "esp32-001", title := some "old", startedAt := 2,
         endedAt := some 5, isActive := false },
       { id := 2, deviceId := "other", title := none, startedAt := 3,
         endedAt := none, isActive := true }],
    coordinates := [], activeSessionByDevice := [("other", 2)],
    latestTelemetryByDevice := [], latestStatusByDevice := [], published := [],
    nextSessionId := 3, nextCoordId := 1, now := 9 }

theorem C3_witness : apiStop "esp32-001" c3State = (c3State, .notFound) := by
  exact C3_stop_without_active_session_is_noop "esp32-001" c3State (by decide) (by decide)
    (by decide)

/-
Claim C6: reconciliation.
-/

/-- Lookup after folding `mapSet` over a list of rows with pairwise-distinct
devices: the first row with the key wins (there is at most one), otherwise the
accumulator's entry survives. -/
theorem mapGet_foldl_mapSet (l : List Session) (m0 : List (String × Nat)) (d : String)
    (hdist : List.Pairwise (fun a b => a.deviceId ≠ b.deviceId) l) :
    mapGet (l.foldl (fun m r => mapSet m r.deviceId r.id) m0) d =
      ((l.find? (fun r => r.deviceId == d)).map Session.id).or (mapGet m0 d) := by
  induction l generalizing m0 with
  | nil => simp
  | cons r l ih =>
    rw [List.pairwise_cons] at hdist
    obtain ⟨hr, hl⟩ := hdist
    rw [List.foldl_cons, ih _ hl]
    by_cases hd : r.deviceId = d
    · subst hd
      have hnone : l.find? (fun r' => r'.deviceId == r.deviceId) = none := by
        rw [List.find?_eq_none]
        intro x hx h
        rw [beq_iff_eq] at h
        exact hr x hx h.symm
      rw [hnone, List.find?_cons_of_pos _ (by simp)]
      simp [mapGet_mapSet_same]
    · rw [List.find?_cons_of_neg _ (by simp [hd]),
        mapGet_mapSet_ne m0 r.deviceId d r.id (fun hh => hd hh.symm)]

/-- In a list of rows with pairwise-distinct devices, the device determines
the row. -/
theorem pairwise_deviceId_inj {l : List Session}
    (h : List.Pairwise (fun a b => a.deviceId ≠ b.deviceId) l) :
    ∀ a ∈ l, ∀ b ∈ l, a.deviceId = b.deviceId → a = b := by
  induction l with
  | nil => simp
  | cons r l ih =>
    rw [List.pairwise_cons] at h
    obtain ⟨hr, hl⟩ := h
    intro a ha b hb hab
    rcases List.mem_cons.mp ha with ha1 | ha1
    · rcases List.mem_cons.mp hb with hb1 | hb1
      · rw [ha1, hb1]
      · rw [ha1] at hab
        exact absurd hab (hr b hb1)
    · rcases List.mem_cons.mp hb with hb1 | hb1
      · rw [hb1] at hab
        exact absurd hab.symm (hr a ha1)
      · exact ih hl a ha1 b hb1 hab

/-- Claim C6: provided the durable rows satisfy the single-active-session
invariant (at most one active row per device, which the spec asserts at every
instant), after `loadActiveSessionsIntoCache` the cache mapping is exactly the
set of active durable rows: an entry `(d, sid)` exists iff an active row of
device `d` with id `sid` does. -/
theorem C6_reconcile_cache_equals_active_rows (s : ServerState)
    (hinv : List.Pairwise
      (fun a b => ¬(a.isActive = true ∧ b.isActive = true ∧ a.deviceId = b.deviceId))
      s.sessions) :
    ∀ d sid, mapGet (loadActiveSessionsIntoCache s).activeSessionByDevice d = some sid ↔
      ∃ r ∈ s.sessions, r.isActive = true ∧ r.deviceId = d ∧ r.id = sid := by
  intro d sid
  have hdist : List.Pairwise (fun a b => a.deviceId ≠ b.deviceId)
      (s.sessions.filter (fun r => r.isActive)) := by
    refine (hinv.filter (fun r => r.isActive)).imp_of_mem ?_
    intro a b ha hb hR hd
    have ha' := (List.mem_filter.mp ha).2
    have hb' := (List.mem_filter.mp hb).2
    exact hR ⟨ha', hb', hd⟩
  have hcache : mapGet (loadActiveSessionsIntoCache s).activeSessionByDevice d =
      ((s.sessions.filter (fun r => r.isActive)).find?
        (fun r => r.deviceId == d)).map Session.id := by
    rw [loadActiveSessionsIntoCache]
    rw [mapGet_foldl_mapSet _ _ _ hdist]
    simp [mapGet]
  rw [hcache]
  constructor
  · intro h
    obtain ⟨r, hfind, hid⟩ := Option.map_eq_some'.mp h
    have hmem := List.mem_of_find?_eq_some hfind
    have hdev : r.deviceId = d := by
      have := List.find?_some hfind
      rwa [beq_iff_eq] at this
    have hmem' := List.mem_filter.mp hmem
    exact ⟨r, hmem'.1, hmem'.2, hdev, hid⟩
  · rintro ⟨r, hmem, hact, hdev, hid⟩
    have hrf : r ∈ s.sessions.filter (fun r => r.isActive) :=
      List.mem_filter.mpr ⟨hmem, hact⟩
    cases hfind : (s.sessions.filter (fun r => r.isActive)).find?
        (fun r => r.deviceId == d) with
    | none =>
      rw [List.find?_eq_none] at hfind
      exact absurd (by simp [hdev]) (hfind r hrf)
    | some x =>
      have hxmem := List.mem_of_find?_eq_some hfind
      have hxdev : x.deviceId = d := by
        have := List.find?_some hfind
        rwa [beq_iff_eq] at this
      have hxr : x = r := pairwise_deviceId_inj hdist x hxmem r hrf (hxdev.trans hdev.symm)
      simp [hxr, hid]

/-- A concrete state for the C6 witness: two active rows for different
devices, an ended row, and a stale cache entry that reconciliation clears. -/
def c6State : ServerState :=
  { sessions :=
      [{ id := 1, deviceId := "a", title := none, startedAt := 1,
         endedAt := none, isActive := true },
       { id := 2, deviceId := "a", title := some "old", startedAt := 0,
         endedAt := some 1, isActive := false },
       { id := 3, deviceId := "b", title := none, startedAt := 2,
         endedAt := none, isActive := true }],
    coordinates := [], activeSessionByDevice := [("stale", 99)],
    latestTelemetryByDevice := [], latestStatusByDevice := [], published := [],
    nextSessionId := 4, nextCoordId := 1, now := 5 }

theorem C6_witness :
    mapGet (loadActiveSessionsIntoCache c6State).activeSessionByDevice "a" = some 1 ↔
      ∃ r ∈ c6State.sessions, r.isActive = true ∧ r.deviceId = "a" ∧ r.id = 1 :=
  C6_reconcile_cache_equals_active_rows c6State (by decide) "a" 1

/-
Claim C2: a second `start` without an intervening `stop`.
-/

/-- The per-row effect of `UPDATE sessions SET is_active=false, ended_at=NOW()
WHERE device_id=$1 AND is_active=true`. -/
def deactivateRow (device : String) (now : Nat) (r : Session) : Session :=
  if r.deviceId = device ∧ r.isActive = true then
    { r with isActive := false, endedAt := some now }
  else r

theorem deactivateRow_id (device : String) (now : Nat) (r : Session) :
    (deactivateRow device now r).id = r.id := by
  unfold deactivateRow
  split <;> rfl

/-- `apiStart` written with `deactivateRow`, for equational reasoning. -/
theorem apiStart_state (device : String) (title : Option String) (s : ServerState)
    (h : device ≠ "") :
    (apiStart device title s).1 =
      { s with
        sessions := (s.sessions.map (deactivateRow device s.now) ++
          [{ id := s.nextSessionId, deviceId := device, title := titleOrNull title,
             startedAt := s.now, endedAt := none, isActive := true }]),
        activeSessionByDevice := mapSet s.activeSessionByDevice device s.nextSessionId,
        published := (s.published ++
          [{ topic := cmdTopicFor device, cmd := "START", sessionId := s.nextSessionId }]),
        nextSessionId := s.nextSessionId + 1 } := by
  simp [apiStart, h, deactivateRow]

theorem apiStart_result (device : String) (title : Option String) (s : ServerState)
    (h : device ≠ "") :
    (apiStart device title s).2 =
      .started { id := s.nextSessionId, deviceId := device, title := titleOrNull title,
                 startedAt := s.now, endedAt := none, isActive := true } := by
  simp [apiStart, h]

/-- `SELECT ... WHERE id = i` on the model's session list. -/
def findSession (sessions : List Session) (i : Nat) : Option Session :=
  sessions.find? (fun r => r.id == i)

theorem findSession_append (l1 l2 : List Session) (i : Nat) :
    findSession (l1 ++ l2) i = (findSession l1 i).or (findSession l2 i) := by
  simp [findSession, List.find?_append]

theorem findSession_eq_none (l : List Session) (i : Nat)
    (h : ∀ r ∈ l, r.id ≠ i) : findSession l i = none := by
  rw [findSession, List.find?_eq_none]
  intro x hx
  simp [h x hx]

/-- Claim C2: `start(d, t1)` then `start(d, t2)` with no intervening stop.
Afterwards the first session's row is `isActive = false` with `endedAt` set,
the second session's row is `isActive = true`, the cache points at the second
session's id, and the two calls returned the two fresh sessions. -/
theorem C2_second_start_supersedes_first (s : ServerState) (d : String)
    (t1 t2 : Option String) (hdev : d ≠ "")
    (hids : ∀ r ∈ s.sessions, r.id < s.nextSessionId) :
    findSession (apiStart d t2 (apiStart d t1 s).1).1.sessions s.nextSessionId =
        some { id := s.nextSessionId, deviceId := d, title := titleOrNull t1,
               startedAt := s.now, endedAt := some s.now, isActive := false }
    ∧ findSession (apiStart d t2 (apiStart d t1 s).1).1.sessions (s.nextSessionId + 1) =
        some { id := s.nextSessionId + 1, deviceId := d, title := titleOrNull t2,
               startedAt := s.now, endedAt := none, isActive := true }
    ∧ mapGet (apiStart d t2 (apiStart d t1 s).1).1.activeSessionByDevice d =
        some (s.nextSessionId + 1)
    ∧ (apiStart d t1 s).2 =
        .started { id := s.nextSessionId, deviceId := d, title := titleOrNull t1,
                   startedAt := s.now, endedAt := none, isActive := true }
    ∧ (apiStart d t2 (apiStart d t1 s).1).2 =
        .started { id := s.nextSessionId + 1, deviceId := d, title := titleOrNull t2,
                   startedAt := s.now, endedAt := none, isActive := true } := by
  have h1 := apiStart_state d t1 s hdev
  have h2 := apiStart_state d t2 (apiStart d t1 s).1 hdev
  have hsess : (apiStart d t2 (apiStart d t1 s).1).1.sessions =
      ((s.sessions.map (deactivateRow d s.now)).map (deactivateRow d s.now) ++
        [{ id := s.nextSessionId, deviceId := d, title := titleOrNull t1,
           startedAt := s.now, endedAt := some s.now, isActive := false }]) ++
      [{ id := s.nextSessionId + 1, deviceId := d, title := titleOrNull t2,
         startedAt := s.now, endedAt := none, isActive := true }] := by
    rw [h2, h1]
    simp [List.map_append, deactivateRow]
  have hpre : ∀ r ∈ (s.sessions.map (deactivateRow d s.now)).map (deactivateRow d s.now),
      r.id < s.nextSessionId := by
    intro r hr
    obtain ⟨r1, hr1, hr1e⟩ := List.mem_map.mp hr
    obtain ⟨r0, hr0, hr0e⟩ := List.mem_map.mp hr1
    rw [← hr1e, deactivateRow_id, ← hr0e, deactivateRow_id]
    exact hids r0 hr0
  have hprenone1 : findSession
      ((s.sessions.map (deactivateRow d s.now)).map (deactivateRow d s.now))
      s.nextSessionId = none :=
    findSession_eq_none _ _ (fun r hr => Nat.ne_of_lt (hpre r hr))
  have hprenone2 : findSession
      ((s.sessions.map (deactivateRow d s.now)).map (deactivateRow d s.now))
      (s.nextSessionId + 1) = none :=
    findSession_eq_none _ _
      (fun r hr => Nat.ne_of_lt (Nat.lt_succ_of_lt (hpre r hr)))
  refine ⟨?_, ?_, ?_, ?_, ?_⟩
  · rw [hsess, findSession_append, findSession_append, hprenone1]
    simp [findSession]
  · rw [hsess, findSession_append, findSession_append, hprenone2]
    simp [findSession]
  · have hcache : (apiStart d t2 (apiStart d t1 s).1).1.activeSessionByDevice =
        mapSet (mapSet s.activeSessionByDevice d s.nextSessionId) d (s.nextSessionId + 1) := by
      rw [h2, h1]
    rw [hcache, mapGet_mapSet_same]
  · rw [apiStart_result d t1 s hdev]
  · rw [apiStart_result d t2 (apiStart d t1 s).1 hdev, h1]

/-- Witness for C2 from the empty initial state. -/
theorem C2_witness :
    findSession (apiStart "dev" (some "t2") (apiStart "dev" (some "t1") initialState).1).1.sessions 1 =
        some { id := 1, deviceId := "dev", title := titleOrNull (some "t1"),
               startedAt := 0, endedAt := some 0, isActive := false }
    ∧ findSession (apiStart "dev" (some "t2") (apiStart "dev" (some "t1") initialState).1).1.sessions (1 + 1) =
        some { id := 1 + 1, deviceId := "dev", title := titleOrNull (some "t2"),
               startedAt := 0, endedAt := none, isActive := true }
    ∧ mapGet (apiStart "dev" (some "t2") (apiStart "dev" (some "t1") initialState).1).1.activeSessionByDevice "dev" =
        some (1 + 1)
    ∧ (apiStart "dev" (some "t1") initialState).2 =
        .started { id := 1, deviceId := "dev", title := titleOrNull (some "t1"),
                   startedAt := 0, endedAt := none, isActive := true }
    ∧ (apiStart "dev" (some "t2") (apiStart "dev" (some "t1") initialState).1).2 =
        .started { id := 1 + 1, deviceId := "dev", title := titleOrNull (some "t2"),
                   startedAt := 0, endedAt := none, isActive := true } :=
  C2_second_start_supersedes_first initialState "dev" (some "t1") (some "t2")
    (by decide) (by decide)

/-
Claims C4, C5, C7, C10: the telemetry branch of the ingestion pipeline.
-/

/-- Unfolding of the telemetry branch of `handleMessage` for a well-formed
report (device id present, finite coordinates). -/
theorem handleMessage_telemetry_eq (topic : String) (m : RawMsg) (insertOk : Bool)
    (s : ServerState) (lat lon : ℚ)
    (hst : strEndsWith topic "/status" = false)
    (htl : strEndsWith topic "/telemetry" = true)
    (hdev : (normalizeTelemetry m).deviceId ≠ "")
    (hlat : (normalizeTelemetry m).lat = .fin lat)
    (hlon : (normalizeTelemetry m).lon = .fin lon) :
    handleMessage topic (some m) insertOk s =
      (let sid : ℚ := resolveSid (normalizeTelemetry m).sessionId
        (normalizeTelemetry m).deviceId s.activeSessionByDevice
      let s1 :=
        { s with latestTelemetryByDevice :=
            (mapSet s.latestTelemetryByDevice (normalizeTelemetry m).deviceId
              { lat := lat, lon := lon, sid := if sid = 0 then none else some sid,
                deviceTs := (normalizeTelemetry m).ts, serverTs := s.now }) }
      if sid = 0 then s1
      else if insertOk then
        insertCoordinate s1 (normalizeTelemetry m).deviceId sid lat lon (normalizeTelemetry m).ts
      else s1) := by
  simp only [handleMessage, hst, htl, Bool.false_eq_true, if_false, if_true, hdev,
    ite_false, ite_true]
  rw [hlat, hlon]

/-- Claim C4: a telemetry report carrying a positive session-id hint persists
its Coordinate under the hinted id, whatever the registry cache holds for the
device (including an entry for a different session): the resulting coordinate
rows are the same for every cache contents, and the hinted id is used. -/
theorem C4_positive_hint_takes_precedence (topic : String) (m : RawMsg) (s : ServerState)
    (q lat lon : ℚ)
    (hst : strEndsWith topic "/status" = false)
    (htl : strEndsWith topic "/telemetry" = true)
    (hdev : (normalizeTelemetry m).deviceId ≠ "")
    (hlat : (normalizeTelemetry m).lat = .fin lat)
    (hlon : (normalizeTelemetry m).lon = .fin lon)
    (hsid : (normalizeTelemetry m).sessionId = .fin q)
    (hq : 0 < q) :
    ∀ cache : List (String × Nat),
      (handleMessage topic (some m) true { s with activeSessionByDevice := cache }).coordinates =
        s.coordinates ++
          [{ id := s.nextCoordId, sessionId := q, deviceId := (normalizeTelemetry m).deviceId,
             lat := lat, lon := lon, deviceTs := (normalizeTelemetry m).ts,
             serverTs := s.now }] := by
  intro cache
  rw [handleMessage_telemetry_eq topic m true { s with activeSessionByDevice := cache }
    lat lon hst htl hdev hlat hlon]
  simp [resolveSid, hsid, hq, hq.ne', insertCoordinate]

/-- A concrete raw message with every field absent, to build witnesses from. -/
def emptyRawMsg : RawMsg :=
  { deviceId := none, id := none, sessionId := none, sid := none, lat := none,
    la := none, lon := none, lo := none, ts := none, t := none, device_ts := none,
    rest := "" }

/-- A telemetry payload `{id:"esp32-001", sid:42, la:43, lo:-79, t:1000}`. -/
def c4Msg : RawMsg :=
  { emptyRawMsg with
    id := some "esp32-001"
    sid := some (.fin 42)
    la := some (.fin 43)
    lo := some (.fin (-79))
    t := some (.fin 1000) }

/-- A state whose registry cache points the device at a different session (7). -/
def c4State : ServerState :=
  { initialState with activeSessionByDevice := [("esp32-001", 7)], nextCoordId := 5, now := 11 }

theorem C4_witness :
    (handleMessage "shiftmatic/test/esp32-001/telemetry" (some c4Msg) true
        { c4State with activeSessionByDevice := [("esp32-001", 7)] }).coordinates =
      c4State.coordinates ++
        [{ id := c4State.nextCoordId, sessionId := 42,
           deviceId := (normalizeTelemetry c4Msg).deviceId, lat := 43, lon := -79,
           deviceTs := (normalizeTelemetry c4Msg).ts, serverTs := c4State.now }] :=
  C4_positive_hint_takes_precedence "shiftmatic/test/esp32-001/telemetry" c4Msg c4State
    42 43 (-79) (by decide) (by decide) (by decide) (by decide) (by decide) (by decide)
    (by norm_num) [("esp32-001", 7)]

/-- Claim C5: a telemetry report with no positive hint, for a device with no
active session in the cache, updates the live telemetry cache (a subsequent
`GET /api/latest` serves the report's coordinates with a null session id from
memory) and writes no Coordinate row, whether or not the DB is healthy. -/
theorem C5_no_hint_no_session_cached_only (topic : String) (m : RawMsg) (s : ServerState)
    (insertOk : Bool) (lat lon : ℚ)
    (hst : strEndsWith topic "/status" = false)
    (htl : strEndsWith topic "/telemetry" = true)
    (hdev : (normalizeTelemetry m).deviceId ≠ "")
    (hlat : (normalizeTelemetry m).lat = .fin lat)
    (hlon : (normalizeTelemetry m).lon = .fin lon)
    (hsid : ∀ q : ℚ, (normalizeTelemetry m).sessionId = .fin q → q ≤ 0)
    (hcache : mapGet s.activeSessionByDevice (normalizeTelemetry m).deviceId = none) :
    (handleMessage topic (some m) insertOk s).coordinates = s.coordinates
    ∧ apiLatest (normalizeTelemetry m).deviceId (handleMessage topic (some m) insertOk s) =
        .fromMemory (normalizeTelemetry m).deviceId none lat lon (normalizeTelemetry m).ts s.now := by
  rw [handleMessage_telemetry_eq topic m insertOk s lat lon hst htl hdev hlat hlon]
  have hsid0 : resolveSid (normalizeTelemetry m).sessionId (normalizeTelemetry m).deviceId
      s.activeSessionByDevice = 0 := by
    cases hcase : (normalizeTelemetry m).sessionId with
    | fin q =>
      have hle := hsid q hcase
      simp [resolveSid, hcache, not_lt.mpr hle]
    | nan => simp [resolveSid, hcache]
    | inf => simp [resolveSid, hcache]
  rw [hsid0]
  constructor
  · simp
  · simp [apiLatest, hdev, mapGet_mapSet_same]

/-- A telemetry payload `{id:"esp32-001", la:43, lo:-79, t:1000}` (no hint). -/
def c5Msg : RawMsg :=
  { emptyRawMsg with
    id := some "esp32-001"
    la := some (.fin 43)
    lo := some (.fin (-79))
    t := some (.fin 1000) }

theorem C5_witness :
    (handleMessage "shiftmatic/test/esp32-001/telemetry" (some c5Msg) true initialState).coordinates =
        initialState.coordinates
    ∧ apiLatest (normalizeTelemetry c5Msg).deviceId
        (handleMessage "shiftmatic/test/esp32-001/telemetry" (some c5Msg) true initialState) =
        .fromMemory (normalizeTelemetry c5Msg).deviceId none 43 (-79)
          (normalizeTelemetry c5Msg).ts initialState.now :=
  C5_no_hint_no_session_cached_only "shiftmatic/test/esp32-001/telemetry" c5Msg initialState
    true 43 (-79) (by decide) (by decide) (by decide) (by decide) (by decide)
    (by intro q hq; cases hq; exact le_refl 0) (by decide)

/-- Claim C7: for every accepted telemetry report the live-telemetry snapshot
is overwritten regardless of the persistence outcome.  When the Coordinate
insert fails, the resulting state is exactly the original state with only the
snapshot replaced (no coordinate row, nothing else touched — the failure is
only logged), and the snapshot equals the one a successful run installs; the
handler stays total, so subsequent messages keep being processed. -/
theorem C7_snapshot_survives_insert_failure (topic : String) (m : RawMsg)
    (s : ServerState) (lat lon : ℚ)
    (hst : strEndsWith topic "/status" = false)
    (htl : strEndsWith topic "/telemetry" = true)
    (hdev : (normalizeTelemetry m).deviceId ≠ "")
    (hlat : (normalizeTelemetry m).lat = .fin lat)
    (hlon : (normalizeTelemetry m).lon = .fin lon) :
    ∃ sidv : Option ℚ,
      handleMessage topic (some m) false s =
        { s with latestTelemetryByDevice :=
            (mapSet s.latestTelemetryByDevice (normalizeTelemetry m).deviceId
              { lat := lat, lon := lon, sid := sidv,
                deviceTs := (normalizeTelemetry m).ts, serverTs := s.now }) }
      ∧ (handleMessage topic (some m) true s).latestTelemetryByDevice =
          mapSet s.latestTelemetryByDevice (normalizeTelemetry m).deviceId
            { lat := lat, lon := lon, sid := sidv,
              deviceTs := (normalizeTelemetry m).ts, serverTs := s.now } := by
  rw [handleMessage_telemetry_eq topic m false s lat lon hst htl hdev hlat hlon,
    handleMessage_telemetry_eq topic m true s lat lon hst htl hdev hlat hlon]
  by_cases h0 : resolveSid (normalizeTelemetry m).sessionId (normalizeTelemetry m).deviceId
      s.activeSessionByDevice = 0
  · exact ⟨none, by simp [h0], by simp [h0]⟩
  · exact ⟨some (resolveSid (normalizeTelemetry m).sessionId (normalizeTelemetry m).deviceId
      s.activeSessionByDevice), by simp [h0], by simp [h0, insertCoordinate]⟩

theorem C7_witness :
    ∃ sidv : Option ℚ,
      handleMessage "shiftmatic/test/esp32-001/telemetry" (some c4Msg) false c4State =
        { c4State with latestTelemetryByDevice :=
            (mapSet c4State.latestTelemetryByDevice (normalizeTelemetry c4Msg).deviceId
              { lat := 43, lon := -79, sid := sidv,
                deviceTs := (normalizeTelemetry c4Msg).ts, serverTs := c4State.now }) }
      ∧ (handleMessage "shiftmatic/test/esp32-001/telemetry" (some c4Msg) true
            c4State).latestTelemetryByDevice =
          mapSet c4State.latestTelemetryByDevice (normalizeTelemetry c4Msg).deviceId
            { lat := 43, lon := -79, sid := sidv,
              deviceTs := (normalizeTelemetry c4Msg).ts, serverTs := c4State.now } :=
  C7_snapshot_survives_insert_failure "shiftmatic/test/esp32-001/telemetry" c4Msg c4State
    43 (-79) (by decide) (by decide) (by decide) (by decide) (by decide)

/-- Claim C8: a malformed inbound message — unparseable payload, missing
device id (on either topic kind), or non-finite coordinates after coercion —
is dropped with no state change at all; the handler returns normally, so the
pipeline keeps processing subsequent messages. -/
theorem C8_malformed_message_is_noop (topic : String) (payload : Option RawMsg)
    (insertOk : Bool) (s : ServerState)
    (h : payload = none
      ∨ (strEndsWith topic "/status" = true ∧
          ∃ m, payload = some m ∧ (normalizeStatus m).deviceId = "")
      ∨ (strEndsWith topic "/status" = false ∧ strEndsWith topic "/telemetry" = true ∧
          ∃ m, payload = some m ∧
            ((normalizeTelemetry m).deviceId = "" ∨
              jFinite (normalizeTelemetry m).lat = false ∨
              jFinite (normalizeTelemetry m).lon = false))) :
    handleMessage topic payload insertOk s = s := by
  rcases h with h | ⟨hst, m, rfl, hdev⟩ | ⟨hst, htl, m, rfl, hbad⟩
  · rw [h]
    rfl
  · simp [handleMessage, hst, hdev]
  · by_cases hdev : (normalizeTelemetry m).deviceId = ""
    · simp [handleMessage, hst, htl, hdev]
    · rcases hbad with hd | hfin | hfin
      · exact absurd hd hdev
      · cases hl : (normalizeTelemetry m).lat <;>
          cases hl2 : (normalizeTelemetry m).lon <;>
            simp_all [handleMessage, hst, htl, hdev, jFinite]
      · cases hl : (normalizeTelemetry m).lat <;>
          cases hl2 : (normalizeTelemetry m).lon <;>
            simp_all [handleMessage, hst, htl, hdev, jFinite]

theorem C8_witness :
    handleMessage "shiftmatic/test/esp32-001/telemetry" none true c4State = c4State :=
  C8_malformed_message_is_noop "shiftmatic/test/esp32-001/telemetry" none true c4State
    (Or.inl rfl)

/-- Claim C10: when the resolved device-timestamp field (the alias chain
`ts ?? t ?? device_ts`, defaulting to 0) is absent, non-numeric (`NaN`), or
equal to 0, the normalizer yields a null timestamp, and that null is what the
cache snapshot and the persisted Coordinate store for an accepted, persisted
report. -/
theorem C10_falsy_device_ts_becomes_null (topic : String) (m : RawMsg) (s : ServerState)
    (q lat lon : ℚ)
    (hts : ((m.ts.orElse (fun _ => m.t)).orElse (fun _ => m.device_ts)).getD (.fin 0) = .fin 0
      ∨ ((m.ts.orElse (fun _ => m.t)).orElse (fun _ => m.device_ts)).getD (.fin 0) = .nan)
    (hst : strEndsWith topic "/status" = false)
    (htl : strEndsWith topic "/telemetry" = true)
    (hdev : (normalizeTelemetry m).deviceId ≠ "")
    (hlat : (normalizeTelemetry m).lat = .fin lat)
    (hlon : (normalizeTelemetry m).lon = .fin lon)
    (hsid : (normalizeTelemetry m).sessionId = .fin q)
    (hq : 0 < q) :
    (normalizeTelemetry m).ts = none
    ∧ mapGet (handleMessage topic (some m) true s).latestTelemetryByDevice
        (normalizeTelemetry m).deviceId =
        some { lat := lat, lon := lon, sid := some q, deviceTs := none, serverTs := s.now }
    ∧ (handleMessage topic (some m) true s).coordinates =
        s.coordinates ++
          [{ id := s.nextCoordId, sessionId := q,
             deviceId := (normalizeTelemetry m).deviceId, lat := lat, lon := lon,
             deviceTs := none, serverTs := s.now }] := by
  have h0 : (normalizeTelemetry m).ts = none := by
    rcases hts with h | h <;> simp [normalizeTelemetry, h, jTruthy]
  refine ⟨h0, ?_, ?_⟩
  · rw [handleMessage_telemetry_eq topic m true s lat lon hst htl hdev hlat hlon]
    simp [resolveSid, hsid, hq, hq.ne', insertCoordinate, h0, mapGet_mapSet_same]
  · rw [handleMessage_telemetry_eq topic m true s lat lon hst htl hdev hlat hlon]
    simp [resolveSid, hsid, hq, hq.ne', insertCoordinate, h0]

/-- A telemetry payload that explicitly carries `t: 0`. -/
def c10Msg : RawMsg :=
  { emptyRawMsg with
    id := some "esp32-001"
    sid := some (.fin 42)
    la := some (.fin 43)
    lo := some (.fin (-79))
    t := some (.fin 0) }

theorem C10_witness :
    (normalizeTelemetry c10Msg).ts = none
    ∧ mapGet (handleMessage "shiftmatic/test/esp32-001/telemetry" (some c10Msg) true
          initialState).latestTelemetryByDevice (normalizeTelemetry c10Msg).deviceId =
        some { lat := 43, lon := -79, sid := some 42, deviceTs := none,
               serverTs := initialState.now }
    ∧ (handleMessage "shiftmatic/test/esp32-001/telemetry" (some c10Msg) true
          initialState).coordinates =
        initialState.coordinates ++
          [{ id := initialState.nextCoordId, sessionId := 42,
             deviceId := (normalizeTelemetry c10Msg).deviceId, lat := 43, lon := -79,
             deviceTs := none, serverTs := initialState.now }] :=
  C10_falsy_device_ts_becomes_null "shiftmatic/test/esp32-001/telemetry" c10Msg
    initialState 42 43 (-79) (Or.inl (by decide)) (by decide) (by decide) (by decide)
    (by decide) (by decide) (by decide) (by norm_num)

/-
Claim C9: HTTP vs transport ingestion in the legacy store-based variant.
-/

/-- A well-formed legacy telemetry report. -/
def c9Msg : LegacyMsg :=
  { deviceId := some "esp32-001", lat := .fin 43, lon := .fin (-79), ts := .fin 1000 }

/-- Claim C9, counterexample: delivering the same report over MQTT and over
`POST /api/telemetry` from the same store at the same instant does not produce
identical states — the appended entries carry different channel tags
(`via: "MQTT"` vs `via: "HTTP"`), so the claim as stated fails. -/
theorem C9_counterexample_channels_differ :
    legacyMqttMessage (some c9Msg) 7 [] ≠ (legacyHttpTelemetry c9Msg 7 []).1 := by
  decide

/-- Claim C9, amended: the two handlers are parallel implementations of the
same pipeline — identical validation, normalization and bounded append — so
for every parsed report and store the resulting stores agree once the
channel tag (`via`) of each entry is erased; in particular both channels
accept and reject exactly the same reports. -/
theorem C9_same_pipeline_up_to_channel_tag (body : LegacyMsg) (now : Nat)
    (store : List LegacyEntry) :
    (legacyMqttMessage (some body) now store).map eraseVia =
      ((legacyHttpTelemetry body now store).1).map eraseVia := by
  cases hdev : body.deviceId with
  | none => simp [legacyMqttMessage, legacyHttpTelemetry, hdev]
  | some dev =>
    cases hlat : body.lat with
    | fin lat =>
      cases hlon : body.lon with
      | fin lon =>
        simp only [legacyMqttMessage, legacyHttpTelemetry, hdev, hlat, hlon]
        by_cases hp : (store ++
            [({ deviceId := dev, lat := lat, lon := lon,
                ts := if jTruthy body.ts then body.ts else .fin (now : ℚ),
                serverTs := now, iso := now, via := "MQTT" } : LegacyEntry)]).length > MAX_POINTS
        · have hp' : (store ++
              [({ deviceId := dev, lat := lat, lon := lon,
                  ts := if jTruthy body.ts then body.ts else .fin (now : ℚ),
                  serverTs := now, iso := now, via := "HTTP" } : LegacyEntry)]).length > MAX_POINTS := by
            simpa using hp
          rw [prune, prune, if_pos hp, if_pos hp']
          simp [eraseVia, List.map_drop]
        · have hp' : ¬(store ++
              [({ deviceId := dev, lat := lat, lon := lon,
                  ts := if jTruthy body.ts then body.ts else .fin (now : ℚ),
                  serverTs := now, iso := now, via := "HTTP" } : LegacyEntry)]).length > MAX_POINTS := by
            simpa using hp
          rw [prune, prune, if_neg hp, if_neg hp']
          simp [eraseVia]
      | nan => simp [legacyMqttMessage, legacyHttpTelemetry, hdev, hlat, hlon]
      | inf => simp [legacyMqttMessage, legacyHttpTelemetry, hdev, hlat, hlon]
    | nan => simp [legacyMqttMessage, legacyHttpTelemetry, hdev, hlat]
    | inf => simp [legacyMqttMessage, legacyHttpTelemetry, hdev, hlat]
